import Mathlib

/-!
Verification development for the rtk-system repository: a shallow embedding of
the position-resolution, NMEA sentence framing, RTCM correction relay, error
tracking, shutdown and configuration-validation logic of the Go source, with
theorems settling the specification claims against it.

Coordinates are Go float64 values; only equality-with-zero, NaN-ness and
IEEE equality matter to the embedded code, so a coordinate is modelled as
either NaN or an exact rational value, with IEEE equality (NaN compares
unequal to everything, including itself).
-/

/-- Coordinate value of a Go float64 as used by the position logic: either the
IEEE NaN value or an exact numeric value. -/
inductive Coord where
  | nan : Coord
  | val : ℚ → Coord
deriving DecidableEq

/-- IEEE equality on coordinates: NaN is unequal to everything, including itself. -/
def Coord.ieeeEq : Coord → Coord → Bool
  | Coord.val a, Coord.val b => a == b
  | _, _ => false

/-- math.IsNaN on a coordinate. -/
def Coord.isNaNb : Coord → Bool
  | Coord.nan => true
  | Coord.val _ => false

/-- A geo.Point: latitude and longitude. A Go `*geo.Point` is `Option GeoPoint`
(`none` is the nil pointer). -/
structure GeoPoint where
  lat : Coord
  lng : Coord
deriving DecidableEq

/-- Errors returned by the embedded code.  Distinct constructors model the
distinct Go error values the claims talk about. -/
inductive GoErr where
  | nilLocation                  -- errNilLocation
  | ioErr (code : Nat)           -- a transport / io error
  | unimplemented (method : String)  -- movementsensor.ErrMethodUnimplemented*
  | fieldRequired (field : String)   -- utils.NewConfigValidationFieldRequiredError
  | requiredAccuracyRange        -- errRequiredAccuracy
  | canceled                     -- context.Canceled
deriving DecidableEq

/-- Modelled from the spec: the rdk `movementsensor.LastPosition` helper
`IsZeroPosition` is not under src/.  Per the spec, the zero position is the
origin point (0,0); a nil point is no position at all, hence not the zero
point.  IEEE comparison with 0 is used, so a NaN coordinate is never zero. -/
def isZeroPosition : Option GeoPoint → Bool
  | none => false
  | some p => p.lat.ieeeEq (Coord.val 0) && p.lng.ieeeEq (Coord.val 0)

/-- Modelled from the spec: the rdk helper `IsPositionNaN` is not under src/.
Per the spec a position "contains NaN" when either coordinate is NaN; a nil
point contains no NaN coordinate. -/
def isPositionNaN : Option GeoPoint → Bool
  | none => false
  | some p => p.lat.isNaNb || p.lng.isNaNb

/-- Modelled from the spec: the rdk helper `ArePointsEqual` is not under src/.
Two points are equal when both are nil, or both are non-nil with IEEE-equal
coordinates (so a NaN point is unequal even to itself). -/
def arePointsEqual : Option GeoPoint → Option GeoPoint → Bool
  | none, none => true
  | some p, some q => p.lat.ieeeEq q.lat && p.lng.ieeeEq q.lng
  | _, _ => false

/-- Modelled from the spec: the rdk `movementsensor.LastError` sliding-window
error tracker is not under src/.  It keeps the last `size` outcomes
(most recent first, `none` = success) and reports degraded when at least
`threshold` of them are errors. -/
structure LastError where
  size : Nat
  threshold : Nat
  window : List (Option GoErr)
deriving DecidableEq

/-- Modelled from the spec: `movementsensor.NewLastError(size, threshold)`
creates an empty tracker. -/
def newLastError (size threshold : Nat) : LastError :=
  { size := size, threshold := threshold, window := [] }

/-- Modelled from the spec: `LastError.Set` records one outcome (success or
error), keeping only the last `size` outcomes. -/
def LastError.record (le : LastError) (e : Option GoErr) : LastError :=
  { le with window := (e :: le.window).take le.size }

/-- Number of errors among the tracked outcomes. -/
def LastError.errCount (le : LastError) : Nat :=
  (le.window.filter fun o => o.isSome).length

/-- Degraded iff at least `threshold` of the last `size` outcomes are errors. -/
def LastError.isDegraded (le : LastError) : Bool :=
  decide (le.threshold ≤ le.errCount)

/-- Modelled from the spec: `LastError.Get` surfaces the most recent recorded
error once the window is degraded, and nil otherwise. -/
def LastError.get (le : LastError) : Option GoErr :=
  if le.isDegraded then (le.window.filterMap id).head? else none

/-- Record a whole sequence of outcomes, oldest first. -/
def recordAll (le : LastError) (outcomes : List (Option GoErr)) : LastError :=
  outcomes.foldl LastError.record le

/-- The positioning snapshot fields used by the embedded queries
(gpsnmea.GPSData in the source). -/
structure NMEASnapshot where
  location : Option GeoPoint
  alt : Coord
deriving DecidableEq

/-- State of an NMEA movement sensor as seen by its query methods:
the data snapshot, the last-known-position cache and the error tracker.
Shared by I2CNMEAMovementSensor (gps-nmea/gps_nmea_i2c.go) and
SerialNMEAMovementSensor, whose Position bodies are identical. -/
structure NMEASensorState where
  data : NMEASnapshot
  lastposition : Option GeoPoint
  err : LastError
deriving DecidableEq

/-- Result triple of Position(): point, altitude, error. -/
structure PositionResult where
  point : Option GeoPoint
  altitude : Coord
  error : Option GoErr
deriving DecidableEq

/-- Position of the I2C NMEA sensor (gps-nmea/gps_nmea_i2c.go lines 178-206):
nil location returns the cache with errNilLocation; a (0,0) location with a
non-zero cache returns the cache with the snapshot altitude; otherwise the
cache is updated (set when the location differs from it; set again when the
location is non-zero and non-NaN) and the location is returned.  The second
component is the cache after the call. -/
def I2CNMEAMovementSensor.Position (s : NMEASensorState) :
    PositionResult × Option GeoPoint :=
  let lastPosition := s.lastposition
  match s.data.location with
  | none => (⟨lastPosition, Coord.val 0, some GoErr.nilLocation⟩, lastPosition)
  | some currentPosition =>
      if isZeroPosition (some currentPosition) && !isZeroPosition lastPosition then
        (⟨lastPosition, s.data.alt, s.err.get⟩, lastPosition)
      else
        let lp1 := if !arePointsEqual (some currentPosition) lastPosition then
          some currentPosition else lastPosition
        let lp2 := if !isZeroPosition (some currentPosition) &&
            !isPositionNaN (some currentPosition) then
          some currentPosition else lp1
        (⟨some currentPosition, s.data.alt, s.err.get⟩, lp2)

/-- CompassHeading of the I2C NMEA sensor (gps-nmea/gps_nmea_i2c.go lines
240-244): returns 0 together with the tracker's current error. -/
def I2CNMEAMovementSensor.CompassHeading (s : NMEASensorState) :
    Coord × Option GoErr :=
  (Coord.val 0, s.err.get)

/-- Error tracker created by NewI2CGPSNMEA (gps-nmea/gps_nmea_i2c.go line 42). -/
def I2CNMEAMovementSensor.errTracker : LastError := newLastError 10 5

/-- State of the I2C no-network rover as seen by its query methods
(gpsrtki2c.RTKI2CNoNetwork): its own error tracker, the last-known-position
cache, and the GPS data snapshot it reads directly. -/
structure RTKI2CNoNetworkState where
  data : NMEASnapshot
  lastposition : Option GeoPoint
  err : LastError
deriving DecidableEq

/-- Position of the I2C no-network rover (src/unnamed/part_006 lines 325-362;
the error-fallback head is also gps-rtk-i2c-no-network/gps_rtk_i2c_no_network.go
lines 200-208 verbatim): when the tracker reports an error, return the cached
position with altitude 0 and nil error if one exists, else the (NaN,NaN)
sentinel with NaN altitude and the error; otherwise run the same
snapshot/cache resolution as the NMEA sensor.  The second component is the
cache after the call. -/
def RTKI2CNoNetwork.Position (s : RTKI2CNoNetworkState) :
    PositionResult × Option GeoPoint :=
  match s.err.get with
  | some lastError =>
      match s.lastposition with
      | some lp => (⟨some lp, Coord.val 0, none⟩, s.lastposition)
      | none => (⟨some ⟨Coord.nan, Coord.nan⟩, Coord.nan, some lastError⟩,
          s.lastposition)
  | none =>
      let lastPosition := s.lastposition
      match s.data.location with
      | none => (⟨lastPosition, Coord.val 0, some GoErr.nilLocation⟩, lastPosition)
      | some currentPosition =>
          if isZeroPosition (some currentPosition) && !isZeroPosition lastPosition then
            (⟨lastPosition, s.data.alt, s.err.get⟩, lastPosition)
          else
            let lp1 := if !arePointsEqual (some currentPosition) lastPosition then
              some currentPosition else lastPosition
            let lp2 := if !isZeroPosition (some currentPosition) &&
                !isPositionNaN (some currentPosition) then
              some currentPosition else lp1
            (⟨some currentPosition, s.data.alt, s.err.get⟩, lp2)

/-- CompassHeading of the I2C no-network rover (src/unnamed/part_006 lines
392-396): always returns 0 with the distinct unimplemented error. -/
def RTKI2CNoNetwork.CompassHeading : Coord × Option GoErr :=
  (Coord.val 0, some (GoErr.unimplemented "CompassHeading"))

/-- Error tracker created by newRTKI2CNoNetwork
(gps-rtk-i2c-no-network/gps_rtk_i2c_no_network.go line 101,
src/unnamed/part_006 line 107). -/
def RTKI2CNoNetwork.errTracker : LastError := newLastError 1 1

/-- A live bus/port handle; `closeErr` is what closing it reports. A Go handle
field of pointer type is `Option Handle` (`none` is nil). -/
structure Handle where
  closeErr : Option GoErr
deriving DecidableEq

/-- Closing a d2r2 i2c handle through a possibly-nil pointer: `(*I2C).Close`
dereferences its receiver, so calling it on a nil handle is a Go nil-pointer
dereference, modelled as `Except.error ()` (a runtime panic). -/
def i2cHandleClose : Option Handle → Except Unit (Option GoErr)
  | none => Except.error ()
  | some h => Except.ok h.closeErr

/-- Outcome of a Close() call: a runtime panic, or a returned error value. -/
inductive CloseResult where
  | panicked
  | returned (e : Option GoErr)
deriving DecidableEq

/-- Handle state of the I2C no-network rover at Close() time. -/
structure RTKI2CNoNetworkCloseState where
  readI2c : Option Handle
  writeI2c : Option Handle
  err : LastError
deriving DecidableEq

/-- Close of the I2C no-network rover (src/unnamed/part_006 lines 449-465):
cancels, then calls readI2c.Close() twice with no nil guard (writeI2c is never
closed), returning the first close error; finally returns the tracker's error
unless it is context.Canceled. -/
def RTKI2CNoNetwork.Close (s : RTKI2CNoNetworkCloseState) : CloseResult :=
  match i2cHandleClose s.readI2c with
  | Except.error _ => CloseResult.panicked
  | Except.ok (some e) => CloseResult.returned (some e)
  | Except.ok none =>
      match i2cHandleClose s.readI2c with
      | Except.error _ => CloseResult.panicked
      | Except.ok (some e) => CloseResult.returned (some e)
      | Except.ok none =>
          match s.err.get with
          | some e =>
              if e = GoErr.canceled then CloseResult.returned none
              else CloseResult.returned (some e)
          | none => CloseResult.returned none

/-- Close of the serial NMEA sensor (src/unnamed/part_002 lines 222-237): the
device is closed only when non-nil and the field is set to nil on success, so
a second call is a no-op.  Returns the result and the device field after the
call. -/
def SerialNMEAMovementSensor.Close (dev : Option Handle) :
    (Option GoErr × Option Handle) :=
  match dev with
  | none => (none, none)
  | some h =>
      match h.closeErr with
      | some e => (some e, some h)
      | none => (none, none)

/-- Error tracker created by NewSerialGPSNMEA (src/unnamed/part_002 line 72). -/
def SerialNMEAMovementSensor.errTracker : LastError := newLastError 1 1

/-- CompassHeading of the serial no-network rover
(gps-rtk-serial-no-network/gps_rtk_serial_no_network.go lines 315-321,
src/unnamed/part_001 lines 316-322): returns the tracker error when set,
otherwise 0 with a nil error. -/
def RTKSerialNoNetwork.CompassHeading (err : LastError) : Coord × Option GoErr :=
  match err.get with
  | some lastError => (Coord.val 0, some lastError)
  | none => (Coord.val 0, none)

/-- AngularVelocity of the serial no-network rover (same files, lines 305-312
and 306-313): returns the zero vector with the tracker error when set,
otherwise the zero vector with a nil error. -/
def RTKSerialNoNetwork.AngularVelocity (err : LastError) :
    (Coord × Coord × Coord) × Option GoErr :=
  match err.get with
  | some lastError => ((Coord.val 0, Coord.val 0, Coord.val 0), some lastError)
  | none => ((Coord.val 0, Coord.val 0, Coord.val 0), none)

/-- LinearAcceleration of the serial no-network rover (same files, lines
296-302 and 297-303): zero vector with the tracker error when set, otherwise
zero vector with a nil error. -/
def RTKSerialNoNetwork.LinearAcceleration (err : LastError) :
    (Coord × Coord × Coord) × Option GoErr :=
  match err.get with
  | some lastError => ((Coord.val 0, Coord.val 0, Coord.val 0), some lastError)
  | none => ((Coord.val 0, Coord.val 0, Coord.val 0), none)

/-- Orientation of the serial no-network rover (same files, lines 324-330 and
325-331): the zero orientation is returned in both branches, so only the error
component is modelled: the tracker error when set, otherwise nil. -/
def RTKSerialNoNetwork.Orientation (err : LastError) : Option GoErr :=
  match err.get with
  | some lastError => some lastError
  | none => none

/-- Error tracker created by newRTKSerialNoNetwork
(gps-rtk-serial-no-network/gps_rtk_serial_no_network.go line 105,
src/unnamed/part_001 line 105). -/
def RTKSerialNoNetwork.errTracker : LastError := newLastError 1 1

/-- Error tracker created by newI2CCorrectionSource
(correction-station-i2c/i2c.go line 49). -/
def I2cCorrectionSource.errTracker : LastError := newLastError 10 5

/-- Error tracker created by newRTKStationI2C (src/unnamed/part_000 line 114). -/
def RtkStationI2C.errTracker : LastError := newLastError 1 1

/-- Error tracker created by newSerialRTKStation
(correction-station-serial/correction_station_serial.go line 112). -/
def RtkStationSerial.errTracker : LastError := newLastError 1 1

/-- One byte of the I2C NMEA sentence framing loop
(gps-nmea/gps_nmea_i2c.go lines 152-169, src/unnamed/part_006 lines 197-214):
CR (0x0D) emits the buffer when non-empty and resets it; a byte that is
neither LF (0x0A) nor the fill byte 0xFF is appended; LF and 0xFF are
dropped.  Returns the new buffer and the emitted sentence, if any. -/
def framerStep (buf : List Nat) (b : Nat) : List Nat × Option (List Nat) :=
  if b == 13 then
    ([], if buf == [] then none else some buf)
  else if !(b == 10) && !(b == 255) then
    (buf ++ [b], none)
  else
    (buf, none)

/-- Run the framing loop over a byte stream from a given buffer, collecting
the emitted sentences in order. -/
def framerRun (buf : List Nat) : List Nat → List Nat × List (List Nat)
  | [] => (buf, [])
  | b :: rest =>
      let st := framerStep buf b
      let fin := framerRun st.1 rest
      (fin.1, st.2.toList ++ fin.2)

/-- A byte survives the framer's drop filter when it is neither LF nor 0xFF. -/
def keptByte (b : Nat) : Bool := !(b == 10) && !(b == 255)

/-- An RTCM3 message as produced by the rtcm3 scanner: either a recognized
message (with its re-encapsulated, serialized wire bytes) or an
unrecognized-type message. -/
inductive RTCMMsg where
  | unknown (raw : List Nat)
  | known (num : Nat) (frame : List Nat)
deriving DecidableEq

/-- rtcm3.EncapsulateMessage followed by Frame.Serialize: the wire bytes of a
message. -/
def encapsulateSerialize : RTCMMsg → List Nat
  | RTCMMsg.unknown raw => raw
  | RTCMMsg.known _ frame => frame

/-- The serial correction relay loop (src/unnamed/part_001 lines 216-245,
gps-rtk-serial-no-network/gps_rtk_serial_no_network.go lines 215-244, and
src/unnamed/part_008 lines 257-287).  Input: the sequence of
scanner.NextMessage results (message, read error) and, for each write
attempt in order, whether the destination write fails.  An unknown message
continues the loop at once; a recognized message is encapsulated, serialized
and written — writer.Write's return value is discarded, so `destFail` never
influences control flow or the recorded error — and only then is the READ
error from NextMessage examined: if set, it is recorded and the loop
returns.  Output: the frames handed to the destination writer and the error
recorded by the loop. -/
def relayLoop : List (RTCMMsg × Option GoErr) → (Nat → Option GoErr) → Nat →
    List (List Nat) × Option GoErr
  | [], _, _ => ([], none)
  | (msg, e) :: rest, destFail, w =>
      match msg with
      | RTCMMsg.unknown _ => relayLoop rest destFail w
      | RTCMMsg.known n frame =>
          match e with
          | some err => ([encapsulateSerialize (RTCMMsg.known n frame)], some err)
          | none =>
              let fin := relayLoop rest destFail (w + 1)
              (encapsulateSerialize (RTCMMsg.known n frame) :: fin.1, fin.2)

/-- receiveAndWriteSerial, relay portion: run the loop from the first write. -/
def receiveAndWriteSerial (results : List (RTCMMsg × Option GoErr))
    (destFail : Nat → Option GoErr) : List (List Nat) × Option GoErr :=
  relayLoop results destFail 0

/-- Validation errors (utils.NewConfigValidationFieldRequiredError and
errRequiredAccuracy). -/
inductive ConfigError where
  | fieldRequired (field : String)
  | requiredAccuracyRange
deriving DecidableEq

/-- Config of the I2C correction station (src/unnamed/part_000 lines 42-49);
required accuracy is a Go float64 compared only against 0 and 5, modelled as
an exact rational. -/
structure StationI2CConfig where
  requiredAccuracy : ℚ
  requiredTime : Int
  i2cBus : Int
  i2cAddr : Int
deriving DecidableEq

/-- Validate of the I2C correction station config (src/unnamed/part_000 lines
52-72): zero accuracy is a missing field; negative or greater-than-5 accuracy
is out of range; zero time, bus or address are missing fields; anything else
passes. -/
def StationI2CConfig.Validate (cfg : StationI2CConfig) : Option ConfigError :=
  if cfg.requiredAccuracy = 0 then
    some (ConfigError.fieldRequired "required_accuracy")
  else if cfg.requiredAccuracy < 0 ∨ cfg.requiredAccuracy > 5 then
    some ConfigError.requiredAccuracyRange
  else if cfg.requiredTime = 0 then
    some (ConfigError.fieldRequired "required_time")
  else if cfg.i2cBus = 0 then
    some (ConfigError.fieldRequired "i2c_bus")
  else if cfg.i2cAddr = 0 then
    some (ConfigError.fieldRequired "i2c_addr")
  else
    none

/-- Config of the serial correction station
(correction-station-serial/correction_station_serial.go lines 47-56). -/
structure StationSerialConfig where
  requiredAccuracy : ℚ
  requiredTime : Int
  serialPath : String
deriving DecidableEq

/-- Validate of the serial correction station config
(correction-station-serial/correction_station_serial.go lines 59-75): same
accuracy and time checks as the I2C station, then an empty serial path is a
missing field. -/
def StationSerialConfig.Validate (cfg : StationSerialConfig) : Option ConfigError :=
  if cfg.requiredAccuracy = 0 then
    some (ConfigError.fieldRequired "required_accuracy")
  else if cfg.requiredAccuracy < 0 ∨ cfg.requiredAccuracy > 5 then
    some ConfigError.requiredAccuracyRange
  else if cfg.requiredTime = 0 then
    some (ConfigError.fieldRequired "required_time")
  else if cfg.serialPath = "" then
    some (ConfigError.fieldRequired "serial_path")
  else
    none

/-- Concrete sensor state: snapshot at (3,4), cache at (2,1), fresh tracker. -/
def sampleStateA : NMEASensorState :=
  { data := ⟨some ⟨Coord.val 3, Coord.val 4⟩, Coord.val 100⟩,
    lastposition := some ⟨Coord.val 2, Coord.val 1⟩,
    err := newLastError 10 5 }

/-- Concrete sensor state: snapshot at the origin, cache at (2,1). -/
def sampleStateB : NMEASensorState :=
  { data := ⟨some ⟨Coord.val 0, Coord.val 0⟩, Coord.val 100⟩,
    lastposition := some ⟨Coord.val 2, Coord.val 1⟩,
    err := newLastError 10 5 }

/-- Concrete rover state with a recorded error and a cached position. -/
def sampleRoverErr : RTKI2CNoNetworkState :=
  { data := ⟨some ⟨Coord.val 3, Coord.val 4⟩, Coord.val 100⟩,
    lastposition := some ⟨Coord.val 2, Coord.val 1⟩,
    err := (newLastError 1 1).record (some (GoErr.ioErr 7)) }

/-- Helper: over a CR-free stretch of input the framer only accumulates: the
buffer gains exactly the bytes that are neither LF nor 0xFF and nothing is
emitted. -/
theorem framerRun_no_cr : ∀ (xs : List Nat) (buf : List Nat), (∀ b ∈ xs, b ≠ 13) →
    framerRun buf xs = (buf ++ xs.filter keptByte, []) := by
  intro xs
  induction xs with
  | nil => intro buf h; simp [framerRun]
  | cons b rest ih =>
      intro buf h
      have hb : (b == 13) = false := by
        simpa using h b (List.mem_cons_self _ _)
      have hrest : ∀ x ∈ rest, x ≠ 13 := fun x hx => h x (List.mem_cons_of_mem _ hx)
      rcases hk : keptByte b with hf | ht
      · have hk' : (!(b == 10) && !(b == 255)) = false := hk
        simp [framerRun, framerStep, hb, hk', List.filter_cons, hk,
          ih _ hrest]
      · have hk' : (!(b == 10) && !(b == 255)) = true := hk
        simp [framerRun, framerStep, hb, hk', List.filter_cons, hk,
          ih _ hrest, List.append_assoc]

/-- Helper: the framer processes a concatenated stream compositionally. -/
theorem framerRun_append (buf xs ys : List Nat) :
    framerRun buf (xs ++ ys) =
      ((framerRun (framerRun buf xs).1 ys).1,
        (framerRun buf xs).2 ++ (framerRun (framerRun buf xs).1 ys).2) := by
  induction xs generalizing buf with
  | nil => simp [framerRun]
  | cons b rest ih => simp [framerRun, ih, List.append_assoc]

/-- Helper: truncating before appending does not change a truncated result. -/
theorem take_append_take (a b : List (Option GoErr)) (n : Nat) :
    (a ++ b.take n).take n = (a ++ b).take n := by
  rw [List.take_append_eq_append_take, List.take_append_eq_append_take,
    List.take_take]
  congr 2
  omega

/-- Helper: after recording a sequence of outcomes (oldest first) the tracker
window holds the most recent `size` outcomes, most recent first. -/
theorem recordAll_window (outcomes : List (Option GoErr)) :
    ∀ le : LastError, le.window.length ≤ le.size →
      recordAll le outcomes =
        { size := le.size, threshold := le.threshold,
          window := (outcomes.reverse ++ le.window).take le.size } := by
  induction outcomes with
  | nil =>
      intro le h
      simp [recordAll, List.take_of_length_le h]
  | cons x rest ih =>
      intro le h
      have hrec : (le.record x).window.length ≤ (le.record x).size := by
        simp [LastError.record]
      have hx := ih (le.record x) hrec
      have hfold : recordAll le (x :: rest) = recordAll (le.record x) rest := rfl
      rw [hfold, hx]
      simp only [LastError.record]
      rw [take_append_take]
      simp [List.append_assoc]

/-- Claim C1, amended: once the last-known-position cache holds a non-zero
point, a Position() call either leaves the cache unchanged or overwrites it
with the current snapshot location, and that location is never the (0,0)
point.  The non-NaN half of the original claim fails: a NaN-containing
location is not the zero point and differs (in IEEE comparison) from every
cached point, so the update-on-difference branch overwrites the cache with it
(see the counterexample). -/
theorem lastPosition_no_zero_overwrite (s : NMEASensorState) (c : GeoPoint)
    (hc : s.lastposition = some c)
    (hz : isZeroPosition (some c) = false) :
    (I2CNMEAMovementSensor.Position s).2 = s.lastposition ∨
      ((I2CNMEAMovementSensor.Position s).2 = s.data.location ∧
        isZeroPosition s.data.location = false) := by
  unfold I2CNMEAMovementSensor.Position
  cases hloc : s.data.location with
  | none => exact Or.inl (by simp)
  | some cur =>
      rcases hzc : isZeroPosition (some cur) with hzf | hzt
      · rcases hnan : isPositionNaN (some cur) with hnf | hnt
        · exact Or.inr (by simp [hzc, hnan, hc, hz])
        · rcases heq : arePointsEqual (some cur) (some c) with hef | het
          · exact Or.inr (by simp [hzc, hnan, hc, hz, heq])
          · exact Or.inl (by simp [hzc, hnan, hc, hz, heq])
      · exact Or.inl (by simp [hzc, hc, hz])

/-- Claim C1, counterexample to the claim as stated: the cache holds the
non-zero, non-NaN point (2,1), the snapshot location is (NaN,NaN), and the
Position() call replaces the cached point with the NaN point. -/
theorem lastPosition_nan_overwrite_cex :
    isZeroPosition (some ⟨Coord.val 2, Coord.val 1⟩) = false ∧
    isPositionNaN (some ⟨Coord.val 2, Coord.val 1⟩) = false ∧
    (I2CNMEAMovementSensor.Position
      { data := ⟨some ⟨Coord.nan, Coord.nan⟩, Coord.val 100⟩,
        lastposition := some ⟨Coord.val 2, Coord.val 1⟩,
        err := newLastError 10 5 }).2 = some ⟨Coord.nan, Coord.nan⟩ ∧
    isPositionNaN (some ⟨Coord.nan, Coord.nan⟩) = true := by decide

/-- Claim C1, witness for the amended theorem at a concrete state. -/
theorem lastPosition_no_zero_overwrite_wit :
    sampleStateA.lastposition = some ⟨Coord.val 2, Coord.val 1⟩ ∧
    isZeroPosition (some ⟨Coord.val 2, Coord.val 1⟩) = false ∧
    ((I2CNMEAMovementSensor.Position sampleStateA).2 = sampleStateA.lastposition ∨
      ((I2CNMEAMovementSensor.Position sampleStateA).2 = sampleStateA.data.location ∧
        isZeroPosition sampleStateA.data.location = false)) :=
  ⟨rfl, by decide,
    lastPosition_no_zero_overwrite sampleStateA ⟨Coord.val 2, Coord.val 1⟩ rfl (by decide)⟩

/-- Claim C2: in every state whose snapshot location is (0,0) and whose cache
holds a non-zero point, Position() returns the cached point together with the
snapshot's altitude (and the tracker's error), not the (0,0) point. -/
theorem position_zero_fallback (s : NMEASensorState) (q : GeoPoint)
    (hloc : s.data.location = some ⟨Coord.val 0, Coord.val 0⟩)
    (hq : s.lastposition = some q)
    (hnz : isZeroPosition (some q) = false) :
    (I2CNMEAMovementSensor.Position s).1 = ⟨some q, s.data.alt, s.err.get⟩ ∧
    (I2CNMEAMovementSensor.Position s).1.point ≠ some ⟨Coord.val 0, Coord.val 0⟩ := by
  have hzero : isZeroPosition (some ⟨Coord.val 0, Coord.val 0⟩) = true := by
    simp [isZeroPosition, Coord.ieeeEq]
  have hres : (I2CNMEAMovementSensor.Position s).1 = ⟨some q, s.data.alt, s.err.get⟩ := by
    unfold I2CNMEAMovementSensor.Position
    simp [hloc, hq, hzero, hnz]
  refine ⟨hres, ?_⟩
  rw [hres]
  intro hcontra
  have : q = ⟨Coord.val 0, Coord.val 0⟩ := by
    simpa using hcontra
  rw [this, hzero] at hnz
  exact absurd hnz (by simp)

/-- Claim C2, witness at a concrete state. -/
theorem position_zero_fallback_wit :
    sampleStateB.data.location = some ⟨Coord.val 0, Coord.val 0⟩ ∧
    sampleStateB.lastposition = some ⟨Coord.val 2, Coord.val 1⟩ ∧
    isZeroPosition (some ⟨Coord.val 2, Coord.val 1⟩) = false ∧
    ((I2CNMEAMovementSensor.Position sampleStateB).1 =
        ⟨some ⟨Coord.val 2, Coord.val 1⟩, sampleStateB.data.alt, sampleStateB.err.get⟩ ∧
      (I2CNMEAMovementSensor.Position sampleStateB).1.point ≠
        some ⟨Coord.val 0, Coord.val 0⟩) :=
  ⟨rfl, rfl, by decide,
    position_zero_fallback sampleStateB ⟨Coord.val 2, Coord.val 1⟩ rfl rfl (by decide)⟩

/-- Claim C3: in every state whose tracker reports an error, the rover's
Position() returns the cached last known position when one is present, and
otherwise the sentinel point with NaN latitude and longitude together with
the underlying error — a stored position is preferred over the hard error. -/
theorem position_errored_fallback (s : RTKI2CNoNetworkState) (e : GoErr)
    (he : s.err.get = some e) :
    (∀ p : GeoPoint, s.lastposition = some p →
      (RTKI2CNoNetwork.Position s).1 = ⟨some p, Coord.val 0, none⟩) ∧
    (s.lastposition = none →
      (RTKI2CNoNetwork.Position s).1 =
        ⟨some ⟨Coord.nan, Coord.nan⟩, Coord.nan, some e⟩) := by
  constructor
  · intro p hp
    unfold RTKI2CNoNetwork.Position
    simp [he, hp]
  · intro hp
    unfold RTKI2CNoNetwork.Position
    simp [he, hp]

/-- Claim C3, witness at a concrete degraded state with a cached position. -/
theorem position_errored_fallback_wit :
    sampleRoverErr.err.get = some (GoErr.ioErr 7) ∧
    sampleRoverErr.lastposition = some ⟨Coord.val 2, Coord.val 1⟩ ∧
    (RTKI2CNoNetwork.Position sampleRoverErr).1 =
      ⟨some ⟨Coord.val 2, Coord.val 1⟩, Coord.val 0, none⟩ :=
  ⟨by decide, rfl,
    (position_errored_fallback sampleRoverErr (GoErr.ioErr 7) (by decide)).1
      ⟨Coord.val 2, Coord.val 1⟩ rfl⟩

/-- Claim C4: the sentence framer emits the buffer on CR exactly when it is
non-empty and resets it; LF and 0xFF are dropped without being buffered and
never terminate a sentence; every other byte is appended; and the sentence
emitted at a CR is exactly the non-LF, non-0xFF bytes received since the
previous CR (here: since the framer start, prefixed by any carried buffer). -/
theorem sentence_framer_spec :
    (∀ buf : List Nat, framerStep buf 13 = ([], if buf = [] then none else some buf)) ∧
    (∀ buf : List Nat, framerStep buf 10 = (buf, none) ∧ framerStep buf 255 = (buf, none)) ∧
    (∀ (buf : List Nat) (b : Nat), b ≠ 13 → b ≠ 10 → b ≠ 255 →
      framerStep buf b = (buf ++ [b], none)) ∧
    (∀ (buf xs : List Nat), (∀ b ∈ xs, b ≠ 13) →
      framerRun buf (xs ++ [13]) =
        ([], if buf ++ xs.filter keptByte = [] then []
          else [buf ++ xs.filter keptByte])) := by
  refine ⟨?_, ?_, ?_, ?_⟩
  · intro buf
    by_cases h : buf = [] <;> simp [framerStep, h]
  · intro buf
    constructor <;> simp [framerStep]
  · intro buf b h13 h10 h255
    simp [framerStep, h13, h10, h255]
  · intro buf xs h
    rw [framerRun_append, framerRun_no_cr xs buf h]
    by_cases hz : buf ++ xs.filter keptByte = [] <;>
      simp [framerRun, framerStep, hz]

/-- Claim C4, witness: the stream "$G" 0xFF LF "H" CR yields exactly the
sentence "$GH" with the fill byte and LF dropped. -/
theorem sentence_framer_spec_wit :
    framerRun [] ([36, 71, 255, 10, 72] ++ [13]) = ([], [[36, 71, 72]]) := by
  have h := sentence_framer_spec.2.2.2 [] [36, 71, 255, 10, 72] (by decide)
  rw [h]
  decide

/-- Claim C5, code bug: the relay drops unknown-type messages and forwards
every recognized message re-encapsulated and serialized, but a destination
write failure is ignored — with every write failing, both recognized frames
are still forwarded, no error is recorded and the loop does not terminate.
The err examined after the write is scanner.NextMessage's read error;
writer.Write's return value is discarded. -/
theorem relay_write_error_ignored_eval :
    receiveAndWriteSerial
      [(RTCMMsg.known 1005 [211, 0, 19], none),
        (RTCMMsg.unknown [255, 255], none),
        (RTCMMsg.known 1077 [211, 0, 24], none)]
      (fun _ => some (GoErr.ioErr 5)) = ([[211, 0, 19], [211, 0, 24]], none) := rfl

/-- Claim C6, code bug: with no recorded error, the serial no-network rover's
CompassHeading, AngularVelocity, LinearAcceleration and Orientation all
return zero values with a nil error, and the I2C NMEA sensor's CompassHeading
returns 0 with a nil error, instead of the distinct unimplemented error that
the I2C rover's CompassHeading (for contrast) does return. -/
theorem unimplemented_methods_eval :
    RTKSerialNoNetwork.CompassHeading (newLastError 1 1) = (Coord.val 0, none) ∧
    RTKSerialNoNetwork.AngularVelocity (newLastError 1 1) =
      ((Coord.val 0, Coord.val 0, Coord.val 0), none) ∧
    RTKSerialNoNetwork.LinearAcceleration (newLastError 1 1) =
      ((Coord.val 0, Coord.val 0, Coord.val 0), none) ∧
    RTKSerialNoNetwork.Orientation (newLastError 1 1) = none ∧
    I2CNMEAMovementSensor.CompassHeading
      { data := ⟨none, Coord.val 0⟩, lastposition := none,
        err := newLastError 10 5 } = (Coord.val 0, none) ∧
    RTKI2CNoNetwork.CompassHeading =
      (Coord.val 0, some (GoErr.unimplemented "CompassHeading")) := by decide

/-- Claim C7, amended: the I2C GPS NMEA sensor and the I2C correction source
use window 10 / threshold 5; the I2C no-network rover, the I2C correction
station wrapper, and every serial component use window 1 / threshold 1; and
a tracker is degraded exactly when at least `threshold` of the last `size`
recorded outcomes are errors. -/
theorem error_tracker_params_amended :
    I2CNMEAMovementSensor.errTracker.size = 10 ∧
    I2CNMEAMovementSensor.errTracker.threshold = 5 ∧
    I2cCorrectionSource.errTracker.size = 10 ∧
    I2cCorrectionSource.errTracker.threshold = 5 ∧
    RTKI2CNoNetwork.errTracker.size = 1 ∧
    RTKI2CNoNetwork.errTracker.threshold = 1 ∧
    RtkStationI2C.errTracker.size = 1 ∧
    RtkStationI2C.errTracker.threshold = 1 ∧
    SerialNMEAMovementSensor.errTracker.size = 1 ∧
    SerialNMEAMovementSensor.errTracker.threshold = 1 ∧
    RTKSerialNoNetwork.errTracker.size = 1 ∧
    RTKSerialNoNetwork.errTracker.threshold = 1 ∧
    RtkStationSerial.errTracker.size = 1 ∧
    RtkStationSerial.errTracker.threshold = 1 ∧
    ∀ (n k : Nat) (outcomes : List (Option GoErr)),
      ((recordAll (newLastError n k) outcomes).isDegraded = true ↔
        k ≤ ((outcomes.reverse.take n).filter (fun o => o.isSome)).length) := by
  refine ⟨rfl, rfl, rfl, rfl, rfl, rfl, rfl, rfl, rfl, rfl, rfl, rfl, rfl, rfl, ?_⟩
  intro n k outcomes
  have h := recordAll_window outcomes (newLastError n k) (by simp [newLastError])
  rw [h]
  simp [LastError.isDegraded, LastError.errCount, newLastError]

/-- Claim C7, counterexample to the claim as stated: the I2C no-network rover
is an I2C-bus component, yet its tracker is created with window 1 and
threshold 1, not 10 and 5. -/
theorem i2c_rover_tracker_params_cex :
    RTKI2CNoNetwork.errTracker.size = 1 ∧
    RTKI2CNoNetwork.errTracker.threshold = 1 ∧
    ¬(RTKI2CNoNetwork.errTracker.size = 10 ∧
      RTKI2CNoNetwork.errTracker.threshold = 5) := by decide

/-- Claim C7, witness: recording one error in a 1-of-1 tracker makes it
degraded, by the degradation characterization. -/
theorem error_tracker_params_amended_wit :
    (recordAll (newLastError 1 1) [some (GoErr.ioErr 3)]).isDegraded = true :=
  (error_tracker_params_amended.2.2.2.2.2.2.2.2.2.2.2.2.2.2 1 1
    [some (GoErr.ioErr 3)]).mpr (by decide)

/-- Claim C8, code bug: the serial NMEA sensor's Close is nil-safe and
idempotent (a nil device, or a second Close after a successful one, returns
no error), but the I2C no-network rover's Close calls the read handle's Close
with no nil guard, so with the handle field still nil (for example, Close
before the relay opened handles, or a repeated Close) it dereferences a nil
pointer and panics. -/
theorem close_nil_handle_eval :
    SerialNMEAMovementSensor.Close none = (none, none) ∧
    SerialNMEAMovementSensor.Close
      (SerialNMEAMovementSensor.Close (some ⟨none⟩)).2 = (none, none) ∧
    RTKI2CNoNetwork.Close
      { readI2c := none, writeI2c := none, err := newLastError 1 1 } =
      CloseResult.panicked ∧
    RTKI2CNoNetwork.Close
      { readI2c := none, writeI2c := some ⟨none⟩, err := newLastError 1 1 } =
      CloseResult.panicked := by decide

/-- Claim C9, amended: Validate rejects a zero accuracy as missing and a
negative or greater-than-5 accuracy as out of range, rejects zero time, zero
bus id, zero address and an empty serial path, and succeeds exactly when
accuracy is non-zero, non-negative and at most 5 with the other fields
present — so accuracies strictly between 0 and 1, although outside [1,5],
are accepted (see the counterexample). -/
theorem validate_amended :
    (∀ cfg : StationI2CConfig,
      cfg.Validate = none ↔
        (cfg.requiredAccuracy ≠ 0 ∧ 0 ≤ cfg.requiredAccuracy ∧
          cfg.requiredAccuracy ≤ 5 ∧ cfg.requiredTime ≠ 0 ∧
          cfg.i2cBus ≠ 0 ∧ cfg.i2cAddr ≠ 0)) ∧
    (∀ cfg : StationSerialConfig,
      cfg.Validate = none ↔
        (cfg.requiredAccuracy ≠ 0 ∧ 0 ≤ cfg.requiredAccuracy ∧
          cfg.requiredAccuracy ≤ 5 ∧ cfg.requiredTime ≠ 0 ∧
          cfg.serialPath ≠ "")) := by
  constructor
  · intro cfg
    unfold StationI2CConfig.Validate
    split_ifs with h1 h2 h3 h4 h5
    · simp [h1]
    · simp only [reduceCtorEq, false_iff]
      rintro ⟨-, hge, hle, -, -, -⟩
      rcases h2 with h | h <;> linarith
    · simp [h3]
    · simp [h4]
    · simp [h5]
    · push_neg at h2
      simp only [true_iff]
      exact ⟨h1, by linarith [h2.1], h2.2, h3, h4, h5⟩
  · intro cfg
    unfold StationSerialConfig.Validate
    split_ifs with h1 h2 h3 h4
    · simp [h1]
    · simp only [reduceCtorEq, false_iff]
      rintro ⟨-, hge, hle, -, -⟩
      rcases h2 with h | h <;> linarith
    · simp [h3]
    · simp [h4]
    · push_neg at h2
      simp only [true_iff]
      exact ⟨h1, by linarith [h2.1], h2.2, h3, h4⟩

/-- Claim C9, counterexample to the claim as stated: accuracy 1/2 lies
outside the interval [1,5] yet Validate accepts the configuration. -/
theorem validate_accuracy_half_cex :
    StationI2CConfig.Validate ⟨1/2, 60, 1, 66⟩ = none ∧ ((1:ℚ)/2 < 1) := by
  constructor
  · unfold StationI2CConfig.Validate
    norm_num
  · norm_num

/-- Claim C9, witness: a fully in-range I2C station config validates. -/
theorem validate_amended_wit :
    StationI2CConfig.Validate ⟨2, 60, 1, 66⟩ = none :=
  (validate_amended.1 ⟨2, 60, 1, 66⟩).mpr
    ⟨by norm_num, by norm_num, by norm_num, by norm_num, by norm_num, by norm_num⟩

/-- Claim C10: whenever the rover's Position() takes the error-fallback
branch (a recorded error and a cached position), it returns the cached point
with altitude 0 and a nil error, regardless of the snapshot's altitude and of
the underlying fault. -/
theorem position_errored_altitude_zero (s : RTKI2CNoNetworkState) (e : GoErr)
    (p : GeoPoint) (he : s.err.get = some e) (hp : s.lastposition = some p) :
    (RTKI2CNoNetwork.Position s).1 = ⟨some p, Coord.val 0, none⟩ := by
  unfold RTKI2CNoNetwork.Position
  simp [he, hp]

/-- Claim C10, witness at a concrete degraded state. -/
theorem position_errored_altitude_zero_wit :
    sampleRoverErr.err.get = some (GoErr.ioErr 7) ∧
    sampleRoverErr.lastposition = some ⟨Coord.val 2, Coord.val 1⟩ ∧
    (RTKI2CNoNetwork.Position sampleRoverErr).1 =
      ⟨some ⟨Coord.val 2, Coord.val 1⟩, Coord.val 0, none⟩ :=
  ⟨by decide, rfl,
    position_errored_altitude_zero sampleRoverErr (GoErr.ioErr 7)
      ⟨Coord.val 2, Coord.val 1⟩ (by decide) rfl⟩
